import Mathlib

/-!
# manager/syntaxedit.h

A shallow embedding of the declarations of `manager/syntaxedit.h`: the two
style masks `SYNTAXEDIT_STYLE` and `SYNTAXEDIT_EXTSTYLE`, the two message codes
`WM_REFLECT` and `SE_PRIVATE_KEY`, and the registration function
`register_syntax_edit`.

The header builds its constants out of names that come from `<windows.h>` and
`<richedit.h>`.  Those platform headers are not part of the repository, so the
macros are embedded as functions of a record `Headers` of the platform
constants they mention, and `winsdk` is that record filled in with the values
of the Windows SDK.  All values are unsigned machine words held in `Nat`; the
theorems show that nothing leaves 32 bits.
-/

namespace SyntaxEdit

/-! ## Platform constants used by the header -/

/-- The constants of `<windows.h>` and `<richedit.h>` that the macros of
`syntaxedit.h` mention, in the order in which they first occur there. -/
structure Headers where
  WS_CHILD : Nat
  WS_CLIPSIBLINGS : Nat
  ES_MULTILINE : Nat
  WS_VISIBLE : Nat
  WS_VSCROLL : Nat
  WS_HSCROLL : Nat
  WS_BORDER : Nat
  WS_TABSTOP : Nat
  ES_WANTRETURN : Nat
  ES_NOOLEDRAGDROP : Nat
  WS_EX_CLIENTEDGE : Nat
  WM_USER : Nat

/-- Modelled from the spec: the values of the platform constants, which live in
the Windows SDK headers `<windows.h>` (`winuser.h`) and `<richedit.h>` and not
in the repository.  The header uses the constants by name only; the values are
those of the SDK headers: `WM_USER 0x0400`, `WS_EX_CLIENTEDGE 0x00000200L`,
`WS_CHILD 0x40000000L`, `WS_VISIBLE 0x10000000L`, `WS_CLIPSIBLINGS 0x04000000L`,
`WS_BORDER 0x00800000L`, `WS_VSCROLL 0x00200000L`, `WS_HSCROLL 0x00100000L`,
`WS_TABSTOP 0x00010000L`, `ES_MULTILINE 0x0004L`, `ES_WANTRETURN 0x1000L` and
`ES_NOOLEDRAGDROP 0x00000008`. -/
def winsdk : Headers where
  WS_CHILD := 0x40000000
  WS_CLIPSIBLINGS := 0x04000000
  ES_MULTILINE := 0x0004
  WS_VISIBLE := 0x10000000
  WS_VSCROLL := 0x00200000
  WS_HSCROLL := 0x00100000
  WS_BORDER := 0x00800000
  WS_TABSTOP := 0x00010000
  ES_WANTRETURN := 0x1000
  ES_NOOLEDRAGDROP := 0x00000008
  WS_EX_CLIENTEDGE := 0x00000200
  WM_USER := 0x0400

/-! ## The macros of `syntaxedit.h` -/

/-- Line 13:
`#define SYNTAXEDIT_STYLE (WS_CHILD | WS_CLIPSIBLINGS | ES_MULTILINE | WS_VISIBLE
| WS_VSCROLL | WS_HSCROLL | WS_BORDER | WS_TABSTOP | ES_WANTRETURN |
ES_NOOLEDRAGDROP)`. -/
def SYNTAXEDIT_STYLE (h : Headers) : Nat :=
  h.WS_CHILD ||| h.WS_CLIPSIBLINGS ||| h.ES_MULTILINE ||| h.WS_VISIBLE ||| h.WS_VSCROLL |||
    h.WS_HSCROLL ||| h.WS_BORDER ||| h.WS_TABSTOP ||| h.ES_WANTRETURN ||| h.ES_NOOLEDRAGDROP

/-- Line 14: `#define SYNTAXEDIT_EXTSTYLE (WS_EX_CLIENTEDGE)`. -/
def SYNTAXEDIT_EXTSTYLE (h : Headers) : Nat :=
  h.WS_EX_CLIENTEDGE

/-- Line 17: `#define WM_REFLECT (WM_USER + 0x1C00)`. -/
def WM_REFLECT (h : Headers) : Nat :=
  h.WM_USER + 0x1C00

/-- Line 19: `#define SE_PRIVATE_KEY (WM_USER + 0x3100)`. -/
def SE_PRIVATE_KEY (h : Headers) : Nat :=
  h.WM_USER + 0x3100

/-- Modelled from the spec: the body of `register_syntax_edit`, of which the
header has only the declaration `extern bool register_syntax_edit(void);`
(line 21); the body is in `syntaxedit.c`.  The specification gives the
operation exactly one atomic platform call, the window-class registration,
makes the result failure when that call fails and success otherwise, and lets a
successful call update the process-wide window-class table.  The C function
has no parameters; the platform it runs on is explicit here: `registerClass`
is the platform's class-registration call, answering `none` when it fails and
the updated class table when it succeeds, and `table` is the class table
before the call.  The result is the returned `bool` together with the class
table after the call. -/
def register_syntax_edit {σ : Type} (registerClass : σ → Option σ) (table : σ) : Bool × σ :=
  match registerClass table with
  | some table' => (true, table')
  | none => (false, table)

/-! ## Vocabulary of the properties -/

/-- The operands of the `|` chain of `SYNTAXEDIT_STYLE`, in source order. -/
def styleFlags (h : Headers) : List Nat :=
  [h.WS_CHILD, h.WS_CLIPSIBLINGS, h.ES_MULTILINE, h.WS_VISIBLE, h.WS_VSCROLL,
    h.WS_HSCROLL, h.WS_BORDER, h.WS_TABSTOP, h.ES_WANTRETURN, h.ES_NOOLEDRAGDROP]

/-- The three edit-control (`ES_*`) operands of `SYNTAXEDIT_STYLE`. -/
def editFlags (h : Headers) : List Nat :=
  [h.ES_MULTILINE, h.ES_WANTRETURN, h.ES_NOOLEDRAGDROP]

/-- The seven generic window (`WS_*`) operands of `SYNTAXEDIT_STYLE`. -/
def windowFlags (h : Headers) : List Nat :=
  [h.WS_CHILD, h.WS_CLIPSIBLINGS, h.WS_VISIBLE, h.WS_VSCROLL, h.WS_HSCROLL,
    h.WS_BORDER, h.WS_TABSTOP]

/-- The flags behind the behaviours that the specification's data model lists
for the style mask: child window, both scroll bars, border, tab stop,
multi-line editing, Enter-key handling, no OLE drag-and-drop. -/
def specFlags (h : Headers) : List Nat :=
  [h.WS_CHILD, h.WS_VSCROLL, h.WS_HSCROLL, h.WS_BORDER, h.WS_TABSTOP, h.ES_MULTILINE,
    h.ES_WANTRETURN, h.ES_NOOLEDRAGDROP]

/-- Bitwise OR of a list of masks. -/
def orAll (fs : List Nat) : Nat :=
  fs.foldl (fun acc f => acc ||| f) 0

/-- C's `~x` on a 32-bit word. -/
def not32 (x : Nat) : Nat :=
  (2 ^ 32 - 1) ^^^ (x % 2 ^ 32)

/-- Number of one bits among the low 32 bits of `x`. -/
def popCount32 (x : Nat) : Nat :=
  ((List.range 32).filter fun i => x.testBit i).length

/-- Upper end of the message range reserved for private window classes,
`WM_USER` through `0x7FFF`. -/
def privateRangeMax : Nat := 0x7FFF

/-! ## Helper lemmas on masks -/

theorem and_eq_of_or_left {a f : Nat} (b : Nat) (hf : a &&& f = f) : (a ||| b) &&& f = f := by
  apply Nat.eq_of_testBit_eq
  intro i
  have hi : (a &&& f).testBit i = f.testBit i := by rw [hf]
  simp only [Nat.testBit_and, Nat.testBit_or] at hi ⊢
  cases ha : a.testBit i <;> cases hb : b.testBit i <;> cases hx : f.testBit i <;> simp_all

theorem and_eq_of_or_right (a f : Nat) : (a ||| f) &&& f = f := by
  apply Nat.eq_of_testBit_eq
  intro i
  simp only [Nat.testBit_and, Nat.testBit_or]
  cases a.testBit i <;> cases f.testBit i <;> rfl

/-! ## The message codes -/

/-- C1: `WM_REFLECT` and `SE_PRIVATE_KEY` are distinct and neither is below
`WM_USER`, whatever `WM_USER` is; with `WM_USER = 0x0400` they are `0x2000` and
`0x3500`, neither lies in the reserved range `0 .. WM_USER - 1`, and both lie in
the private-window-class range `[WM_USER, 0x7FFF]`. -/
theorem message_codes_distinct_and_private :
    (∀ h : Headers, WM_REFLECT h ≠ SE_PRIVATE_KEY h ∧
        h.WM_USER ≤ WM_REFLECT h ∧ h.WM_USER ≤ SE_PRIVATE_KEY h) ∧
      winsdk.WM_USER = 0x0400 ∧
      WM_REFLECT winsdk = 0x2000 ∧ SE_PRIVATE_KEY winsdk = 0x3500 ∧
      WM_REFLECT winsdk ≠ SE_PRIVATE_KEY winsdk ∧
      ¬ WM_REFLECT winsdk ≤ winsdk.WM_USER - 1 ∧
      ¬ SE_PRIVATE_KEY winsdk ≤ winsdk.WM_USER - 1 ∧
      (winsdk.WM_USER ≤ WM_REFLECT winsdk ∧ WM_REFLECT winsdk ≤ privateRangeMax) ∧
      (winsdk.WM_USER ≤ SE_PRIVATE_KEY winsdk ∧ SE_PRIVATE_KEY winsdk ≤ privateRangeMax) := by
  refine ⟨?_, by decide⟩
  intro h
  simp only [WM_REFLECT, SE_PRIVATE_KEY]
  omega

/-! ## The extended style -/

/-- C3: `SYNTAXEDIT_EXTSTYLE` is the client-edge extended style and nothing
else: it equals `WS_EX_CLIENTEDGE` for any platform headers, its value is
`0x00000200`, and masking out `WS_EX_CLIENTEDGE` leaves zero. -/
theorem extstyle_is_client_edge :
    (∀ h : Headers, SYNTAXEDIT_EXTSTYLE h = h.WS_EX_CLIENTEDGE) ∧
      SYNTAXEDIT_EXTSTYLE winsdk = 0x00000200 ∧
      winsdk.WS_EX_CLIENTEDGE = 0x00000200 ∧
      SYNTAXEDIT_EXTSTYLE winsdk &&& not32 winsdk.WS_EX_CLIENTEDGE = 0 := by
  refine ⟨fun _ => rfl, by decide, by decide, by decide⟩

/-! ## The style mask -/

/-- C2: every flag the specification names is set in `SYNTAXEDIT_STYLE`:
masking the style with any of `WS_CHILD`, `WS_VSCROLL`, `WS_HSCROLL`,
`WS_BORDER`, `WS_TABSTOP`, `ES_MULTILINE`, `ES_WANTRETURN`, `ES_NOOLEDRAGDROP`
gives that flag back, for any platform headers; with the SDK values each of
these flags is a non-zero mask, so the behaviour is really switched on. -/
theorem style_has_spec_flags :
    (∀ h : Headers,
        SYNTAXEDIT_STYLE h &&& h.WS_CHILD = h.WS_CHILD ∧
        SYNTAXEDIT_STYLE h &&& h.WS_VSCROLL = h.WS_VSCROLL ∧
        SYNTAXEDIT_STYLE h &&& h.WS_HSCROLL = h.WS_HSCROLL ∧
        SYNTAXEDIT_STYLE h &&& h.WS_BORDER = h.WS_BORDER ∧
        SYNTAXEDIT_STYLE h &&& h.WS_TABSTOP = h.WS_TABSTOP ∧
        SYNTAXEDIT_STYLE h &&& h.ES_MULTILINE = h.ES_MULTILINE ∧
        SYNTAXEDIT_STYLE h &&& h.ES_WANTRETURN = h.ES_WANTRETURN ∧
        SYNTAXEDIT_STYLE h &&& h.ES_NOOLEDRAGDROP = h.ES_NOOLEDRAGDROP) ∧
      (specFlags winsdk).all (fun f =>
        decide (f ≠ 0 ∧ SYNTAXEDIT_STYLE winsdk &&& f = f)) = true := by
  refine ⟨?_, by decide⟩
  intro h
  unfold SYNTAXEDIT_STYLE
  refine ⟨?_, ?_, ?_, ?_, ?_, ?_, ?_, ?_⟩ <;>
    repeat (first
      | exact and_eq_of_or_right _ _
      | exact Nat.and_self _
      | apply and_eq_of_or_left)

/-- C5: `SYNTAXEDIT_STYLE` is the bitwise OR of its ten operands `WS_CHILD`,
`WS_CLIPSIBLINGS`, `ES_MULTILINE`, `WS_VISIBLE`, `WS_VSCROLL`, `WS_HSCROLL`,
`WS_BORDER`, `WS_TABSTOP`, `ES_WANTRETURN`, `ES_NOOLEDRAGDROP`; with the SDK
values it is `0x54B1100C`, which fits in 32 bits, and it has `WS_VISIBLE`
(`0x10000000`) and `WS_CLIPSIBLINGS` (`0x04000000`) set, two bits that none of
the flags listed by the specification's data model covers. -/
theorem style_value :
    (∀ h : Headers, SYNTAXEDIT_STYLE h = orAll (styleFlags h) ∧ (styleFlags h).length = 10) ∧
      SYNTAXEDIT_STYLE winsdk = 0x54B1100C ∧
      SYNTAXEDIT_STYLE winsdk < 2 ^ 32 ∧
      winsdk.WS_VISIBLE = 0x10000000 ∧
      winsdk.WS_CLIPSIBLINGS = 0x04000000 ∧
      SYNTAXEDIT_STYLE winsdk &&& winsdk.WS_VISIBLE = winsdk.WS_VISIBLE ∧
      SYNTAXEDIT_STYLE winsdk &&& winsdk.WS_CLIPSIBLINGS = winsdk.WS_CLIPSIBLINGS ∧
      orAll (specFlags winsdk) &&& winsdk.WS_VISIBLE = 0 ∧
      orAll (specFlags winsdk) &&& winsdk.WS_CLIPSIBLINGS = 0 := by
  refine ⟨?_, by decide⟩
  intro h
  simp [SYNTAXEDIT_STYLE, orAll, styleFlags]

/-- C7: with the SDK values the ten operands of `SYNTAXEDIT_STYLE` are single
bits (powers of two) that are pairwise disjoint; the three `ES_*` flags lie in
the low 16 bits and the seven `WS_*` flags in the high 16 bits of the 32-bit
word; so the OR equals the arithmetic sum, exactly ten bits are set, and
clearing any one of the flags changes the mask. -/
theorem style_flags_disjoint_bits :
    styleFlags winsdk =
        [2 ^ 30, 2 ^ 26, 2 ^ 2, 2 ^ 28, 2 ^ 21, 2 ^ 20, 2 ^ 23, 2 ^ 16, 2 ^ 12, 2 ^ 3] ∧
      (styleFlags winsdk).Pairwise (fun a b => a &&& b = 0) ∧
      (editFlags winsdk ++ windowFlags winsdk).Perm (styleFlags winsdk) ∧
      (editFlags winsdk).all (fun f => decide (f < 2 ^ 16)) = true ∧
      (windowFlags winsdk).all (fun f => decide (f % 2 ^ 16 = 0 ∧ f < 2 ^ 32)) = true ∧
      SYNTAXEDIT_STYLE winsdk = (styleFlags winsdk).sum ∧
      popCount32 (SYNTAXEDIT_STYLE winsdk) = 10 ∧
      SYNTAXEDIT_STYLE winsdk < 2 ^ 32 ∧
      (styleFlags winsdk).all (fun f =>
        decide (SYNTAXEDIT_STYLE winsdk &&& not32 f ≠ SYNTAXEDIT_STYLE winsdk)) = true := by
  decide

/-! ## Reflected messages -/

/-- C6: for a standard message number `m1` below `WM_USER` (`0x0400`), the
reflected code `WM_REFLECT + m1` lies in the private range `[WM_USER, 0x7FFF]`,
is strictly below `SE_PRIVATE_KEY`, is not itself a message number below
`WM_USER`, and differs from `WM_REFLECT + m2` for every message number `m2`
other than `m1`. -/
theorem reflected_codes (m1 m2 : Nat) (h1 : m1 < winsdk.WM_USER) :
    winsdk.WM_USER ≤ WM_REFLECT winsdk + m1 ∧
      WM_REFLECT winsdk + m1 ≤ privateRangeMax ∧
      WM_REFLECT winsdk + m1 < SE_PRIVATE_KEY winsdk ∧
      ¬ WM_REFLECT winsdk + m1 < winsdk.WM_USER ∧
      (m1 ≠ m2 → WM_REFLECT winsdk + m1 ≠ WM_REFLECT winsdk + m2) := by
  have hu : winsdk.WM_USER = 1024 := rfl
  have hr : WM_REFLECT winsdk = 8192 := rfl
  have hk : SE_PRIVATE_KEY winsdk = 13568 := rfl
  have hp : privateRangeMax = 32767 := rfl
  rw [hu] at h1
  rw [hu, hr, hk, hp]
  omega

/-- Instance of `reflected_codes` at `WM_PAINT = 0x000F` and
`WM_COMMAND = 0x0111`. -/
theorem reflected_codes_witness :
    0x000F < winsdk.WM_USER ∧
      (winsdk.WM_USER ≤ WM_REFLECT winsdk + 0x000F ∧
        WM_REFLECT winsdk + 0x000F ≤ privateRangeMax ∧
        WM_REFLECT winsdk + 0x000F < SE_PRIVATE_KEY winsdk ∧
        ¬ WM_REFLECT winsdk + 0x000F < winsdk.WM_USER ∧
        (0x000F ≠ 0x0111 → WM_REFLECT winsdk + 0x000F ≠ WM_REFLECT winsdk + 0x0111)) :=
  ⟨by decide, reflected_codes 0x000F 0x0111 (by decide)⟩

/-! ## The registrar -/

/-- C4: `register_syntax_edit` returns `false` exactly when the platform's
window-class registration call fails and `true` exactly when it succeeds, for
every platform call and class table; the returned boolean is its only report of
the failure, and both outcomes occur. -/
theorem register_fails_iff_registration_fails :
    (∀ (σ : Type) (registerClass : σ → Option σ) (table : σ),
        ((register_syntax_edit registerClass table).1 = false ↔ registerClass table = none) ∧
        ((register_syntax_edit registerClass table).1 = true ↔
          ∃ table', registerClass table = some table')) ∧
      (register_syntax_edit (fun _ : List String => none) []).1 = false ∧
      (register_syntax_edit (fun t : List String => some ("SyntaxEdit" :: t)) []).1 = true := by
  refine ⟨?_, rfl, rfl⟩
  intro σ registerClass table
  unfold register_syntax_edit
  cases registerClass table <;> simp

end SyntaxEdit
